import Mathlib

/-!
Shallow embedding of the upload/analyze pipeline of `src/app/routes/upload.tsx`
(the `handleAnalyze` async handler of the AI resume analyser).

External collaborators (filesystem upload, PDF-to-image conversion, key/value
store, AI inference, JSON.parse) are modelled by an environment `Env` supplying
each awaited call's outcome; a thrown exception is an `Except.error` carrying
the JavaScript error shape.  The handler itself becomes the total function
`handleAnalyze`, returning the final UI state (`isProcessing`, `statusText`),
the ordered trace of external side-effecting calls, and the text handed to the
JSON parser (if that point was reached).  Text manipulated by the response
parsing logic is modelled as `List Char`.
-/

set_option autoImplicit false

namespace UploadPipeline

/-- A JavaScript thrown value: either an `Error` (with a `.message`) or any
other thrown value (`err instanceof Error` false). -/
inductive JSErr where
  | jsError (message : String)
  | nonErrorThrow
  deriving DecidableEq

/-- The status text produced by the outer catch-all:
`Error: ${err instanceof Error ? err.message : 'Unknown error occurred'}`. -/
def errStatus : JSErr → String
  | .jsError m => "Error: " ++ m
  | .nonErrorThrow => "Error: Unknown error occurred"

/-- Result of `fs.upload`: an item with a `.path` (a falsy result is modelled
by `Option.none` at the call site). -/
structure FSItem where
  path : String
  deriving DecidableEq

/-- Result of `convertPdfToImage`: an object whose `.file` may be absent/null
(the code checks `!ImageFile.file`). Only the truthiness of `.file` matters. -/
structure PdfConversion where
  file : Option Unit
  deriving DecidableEq

/-- One element of an array-shaped `feedback.message.content`: the fields the
code inspects (`item.type`, `item.text`, `item.content`); an absent field is
`none`, and a JS-falsy string is the empty list. -/
structure ContentItem where
  type : Option String
  text : Option (List Char)
  content : Option (List Char)
  deriving DecidableEq

/-- `feedback.message.content`: a plain string, an array of items, or any
other value (neither string nor array; its contents are never inspected). -/
inductive AIContent where
  | str (s : List Char)
  | arr (items : List ContentItem)
  | other
  deriving DecidableEq

/-- `feedback.message`. -/
structure AIMessage where
  content : AIContent
  deriving DecidableEq

/-- A truthy `ai.feedback` response. -/
structure AIResponse where
  message : AIMessage
  deriving DecidableEq

/-- JS truthiness of an optional string value (an absent field and the empty
string are both falsy). -/
def truthyText : Option (List Char) → Bool
  | some s => !s.isEmpty
  | none => false

/-- The `find` predicate `(item) => item.type === 'text' || item.text`. -/
def itemMatches (it : ContentItem) : Bool :=
  it.type == some "text" || truthyText it.text

/-- `textContent?.text || textContent?.content || ''` for a found item. -/
def itemText (it : ContentItem) : List Char :=
  if truthyText it.text then it.text.getD []
  else if truthyText it.content then it.content.getD []
  else []

/-- The response-format dispatch of lines 77-83 of `upload.tsx`: a string
content is taken as-is; an array is scanned with `find(itemMatches)`; any
other shape leaves `feedbackText` at its initial `''`. -/
def extractText : AIContent → List Char
  | .str s => s
  | .arr items =>
    match items.find? itemMatches with
    | some it => itemText it
    | none => []
  | .other => []

/-- `feedbackText.replace(/```json\n?/g, '')`: scan left to right, removing
each occurrence of `` ```json `` together with one following newline when
present. -/
def stripJsonFence : List Char → List Char
  | '`' :: '`' :: '`' :: 'j' :: 's' :: 'o' :: 'n' :: '\n' :: rest => stripJsonFence rest
  | '`' :: '`' :: '`' :: 'j' :: 's' :: 'o' :: 'n' :: rest => stripJsonFence rest
  | c :: rest => c :: stripJsonFence rest
  | [] => []

/-- `.replace(/```\n?/g, '')`: remove each occurrence of ```` ``` ```` together
with one following newline when present. -/
def stripFence : List Char → List Char
  | '`' :: '`' :: '`' :: '\n' :: rest => stripFence rest
  | '`' :: '`' :: '`' :: rest => stripFence rest
  | c :: rest => c :: stripFence rest
  | [] => []

/-- JS `String.prototype.trim` whitespace (the characters relevant here). -/
def isWS (c : Char) : Bool :=
  c = ' ' || c = '\n' || c = '\t' || c = '\r'

/-- `.trim()`: drop whitespace from both ends. -/
def trimChars (l : List Char) : List Char :=
  ((l.dropWhile isWS).reverse.dropWhile isWS).reverse

/-- Line 92 of `upload.tsx`:
`feedbackText.replace(/```json\n?/g, '').replace(/```\n?/g, '').trim()`. -/
def cleanText (l : List Char) : List Char :=
  trimChars (stripFence (stripJsonFence l))

/-- A minimal JS value, enough to express presence and truthiness of the
fields the validation step inspects. -/
inductive JSVal where
  | num (n : Int)
  | str (s : String)
  | boolean (b : Bool)
  | null
  | obj
  deriving DecidableEq

/-- JS truthiness of a `JSVal`. -/
def JSVal.truthy : JSVal → Bool
  | .num n => n != 0
  | .str s => !s.isEmpty
  | .boolean b => b
  | .null => false
  | .obj => true

/-- The parsed AI feedback as far as the code looks at it: the two fields
whose truthiness is checked; `none` is an absent field. -/
structure ParsedFeedback where
  overallScore : Option JSVal
  ATS : Option JSVal
  deriving DecidableEq

/-- `!parsedFeedback.overallScore` etc.: an absent field is falsy. -/
def truthyField : Option JSVal → Bool
  | some v => v.truthy
  | none => false

/-- The `feedback` field of the record: `''` at creation, later overwritten
by the parsed feedback object (`data.feedback = parsedFeedback`). -/
inductive FeedbackVal where
  | emptyStr
  | obj (p : ParsedFeedback)
  deriving DecidableEq

/-- The `data` object persisted under `resume:<uuid>`. -/
structure ResumeRecord where
  id : String
  resumePath : String
  imagePath : String
  companyName : String
  jobTitle : String
  jobDescription : String
  feedback : FeedbackVal
  deriving DecidableEq

/-- One external side-effecting call of the pipeline, in the order the code
can make them. -/
inductive Event where
  | uploadFile
  | convertPdf
  | uploadImage
  | kvSet (key : String) (record : ResumeRecord)
  | aiFeedback (path : String) (instructions : String)
  | navigate (url : String)
  deriving DecidableEq

/-- `Event` recognisers used to count side effects. -/
def isKvSet : Event → Bool
  | .kvSet _ _ => true
  | _ => false

def isUpload : Event → Bool
  | .uploadFile => true
  | .uploadImage => true
  | _ => false

def isNavigate : Event → Bool
  | .navigate _ => true
  | _ => false

/-- The outcomes the environment supplies for each awaited external call of
one `handleAnalyze` run.  An `Except.error` is a thrown exception at that
call; `Option.none` inside an `ok` is a falsy (null/undefined) result. -/
structure Env where
  uploadResumeRes : Except JSErr (Option FSItem)
  convertRes : Except JSErr PdfConversion
  uploadImageRes : Except JSErr (Option FSItem)
  kvSet1Res : Except JSErr Unit
  aiRes : Except JSErr (Option AIResponse)
  parse : List Char → Except JSErr ParsedFeedback
  kvSet2Res : Except JSErr Unit
  uuid : String
  prepareInstructions : String → String → String

/-- The observable outcome of one `handleAnalyze` run: the final values of
the two `useState` cells, the ordered trace of external calls made, and the
cleaned text handed to `JSON.parse` (when that point was reached). -/
structure RunResult where
  isProcessing : Bool
  statusText : String
  events : List Event
  parserInput : Option (List Char)
  deriving DecidableEq

/-- The `handleAnalyze` pipeline of `upload.tsx` lines 23-126, step by step:
each early `return setStatusText(...)` becomes a `RunResult` with the events
so far; a thrown exception at any awaited call lands in the outer catch,
which clears the processing flag and renders `errStatus`. -/
def handleAnalyze (env : Env) (companyName jobTitle jobDescription : String) : RunResult :=
  match env.uploadResumeRes with
  | .error e => ⟨false, errStatus e, [.uploadFile], none⟩
  | .ok none => ⟨false, "Failed to upload file. Please try again.", [.uploadFile], none⟩
  | .ok (some uploadedFile) =>
    match env.convertRes with
    | .error e => ⟨false, errStatus e, [.uploadFile, .convertPdf], none⟩
    | .ok imageFile =>
      match imageFile.file with
      | none => ⟨false, "Failed to convert file to image.", [.uploadFile, .convertPdf], none⟩
      | some _ =>
        match env.uploadImageRes with
        | .error e => ⟨false, errStatus e, [.uploadFile, .convertPdf, .uploadImage], none⟩
        | .ok none =>
          ⟨false, "Failed to upload File. Please try again.",
            [.uploadFile, .convertPdf, .uploadImage], none⟩
        | .ok (some uploadedImage) =>
          let data : ResumeRecord :=
            { id := env.uuid
              resumePath := uploadedFile.path
              imagePath := uploadedImage.path
              companyName := companyName
              jobTitle := jobTitle
              jobDescription := jobDescription
              feedback := .emptyStr }
          let ev4 : List Event :=
            [.uploadFile, .convertPdf, .uploadImage, .kvSet ("resume:" ++ env.uuid) data]
          match env.kvSet1Res with
          | .error e => ⟨false, errStatus e, ev4, none⟩
          | .ok _ =>
            let ev5 := ev4 ++
              [.aiFeedback uploadedFile.path
                (env.prepareInstructions jobTitle jobDescription)]
            match env.aiRes with
            | .error e => ⟨false, errStatus e, ev5, none⟩
            | .ok none => ⟨false, "Failed to analyze resume. Please try again.", ev5, none⟩
            | .ok (some feedback) =>
              let feedbackText := extractText feedback.message.content
              if feedbackText.isEmpty then
                ⟨false, "Invalid AI response format. Please try again.", ev5, none⟩
              else
                let cleaned := cleanText feedbackText
                match env.parse cleaned with
                | .error _ =>
                  ⟨false, "Failed to parse AI response. Please try again.", ev5, some cleaned⟩
                | .ok parsedFeedback =>
                  if !truthyField parsedFeedback.overallScore
                      || !truthyField parsedFeedback.ATS then
                    ⟨false, "Invalid feedback format from AI. Please try again.", ev5,
                      some cleaned⟩
                  else
                    let data2 := { data with feedback := .obj parsedFeedback }
                    let ev6 := ev5 ++ [.kvSet ("resume:" ++ env.uuid) data2]
                    match env.kvSet2Res with
                    | .error e => ⟨false, errStatus e, ev6, some cleaned⟩
                    | .ok _ =>
                      ⟨true, "Analysis Complete! Redirecting...",
                        ev6 ++ [.navigate ("/resume/" ++ env.uuid)], some cleaned⟩

/-- The resume path recorded in the data object (meaningful once the first
upload returned an item). -/
def resumePathOf (env : Env) : String :=
  match env.uploadResumeRes with
  | .ok (some f) => f.path
  | _ => ""

/-- The image path recorded in the data object. -/
def imagePathOf (env : Env) : String :=
  match env.uploadImageRes with
  | .ok (some f) => f.path
  | _ => ""

/-- The record of the first persistence write (feedback pending). -/
def record1 (env : Env) (companyName jobTitle jobDescription : String) : ResumeRecord :=
  { id := env.uuid
    resumePath := resumePathOf env
    imagePath := imagePathOf env
    companyName := companyName
    jobTitle := jobTitle
    jobDescription := jobDescription
    feedback := .emptyStr }

/-- The parsed feedback the run would attach (meaningful once the AI call
returned a response and the parse succeeded). -/
def parsedOf (env : Env) : ParsedFeedback :=
  match env.aiRes with
  | .ok (some fb) =>
    match env.parse (cleanText (extractText fb.message.content)) with
    | .ok p => p
    | .error _ => ⟨none, none⟩
  | _ => ⟨none, none⟩

/-- The full trace of a run in which every step succeeds; every actual run's
trace is a prefix of it. -/
def fullTrace (env : Env) (companyName jobTitle jobDescription : String) : List Event :=
  [.uploadFile, .convertPdf, .uploadImage,
    .kvSet ("resume:" ++ env.uuid) (record1 env companyName jobTitle jobDescription),
    .aiFeedback (resumePathOf env) (env.prepareInstructions jobTitle jobDescription),
    .kvSet ("resume:" ++ env.uuid)
      { record1 env companyName jobTitle jobDescription with feedback := .obj (parsedOf env) },
    .navigate ("/resume/" ++ env.uuid)]

/-- Replay of the key/value writes in a trace: the value the store holds at a
key after the run (last write wins; there is no delete). -/
def storeAfter (es : List Event) (k : String) : Option ResumeRecord :=
  es.foldl
    (fun acc e =>
      match e with
      | .kvSet k2 rec => if k2 = k then some rec else acc
      | _ => acc)
    none

/-- Whether a list of characters starts with two backticks. -/
def startsTwoTicks : List Char → Bool
  | '`' :: '`' :: _ => true
  | _ => false

/-- Whether a list of characters starts with an opening/closing Markdown
fence marker (three backticks). -/
def startsTriple : List Char → Bool
  | '`' :: '`' :: '`' :: _ => true
  | _ => false

/-- Whether a fence marker (three consecutive backticks) occurs anywhere in
the text. -/
def hasTriple : List Char → Bool
  | [] => false
  | c :: cs => startsTriple (c :: cs) || hasTriple cs

/-- A failure at one of the steps after the first persistence write: the AI
call threw or returned a falsy response, no text could be extracted from the
response, `JSON.parse` threw, or the validation rejected the parsed object. -/
def lateFailure (env : Env) : Bool :=
  match env.aiRes with
  | .error _ => true
  | .ok none => true
  | .ok (some resp) =>
    let t := extractText resp.message.content
    if t.isEmpty then true
    else
      match env.parse (cleanText t) with
      | .error _ => true
      | .ok p => !truthyField p.overallScore || !truthyField p.ATS

/-- The AI answer used by the concrete runs below: a fenced text document. -/
def aiAnswer : List Char :=
  "```json\nscore 85 and ATS good\n```".toList

/-- A fully successful environment: every external call returns a good
result and the response parses to an object with truthy `overallScore` and
`ATS`. -/
def envOk : Env :=
  { uploadResumeRes := .ok (some ⟨"/files/resume.pdf"⟩)
    convertRes := .ok ⟨some ()⟩
    uploadImageRes := .ok (some ⟨"/files/resume.png"⟩)
    kvSet1Res := .ok ()
    aiRes := .ok (some ⟨⟨.str aiAnswer⟩⟩)
    parse := fun _ => .ok ⟨some (.num 85), some .obj⟩
    kvSet2Res := .ok ()
    uuid := "u-123"
    prepareInstructions := fun _ _ => "instructions" }

/-- Like `envOk`, but the parsed object carries `overallScore: 0`: the field
is present yet JS-falsy. -/
def envScoreZero : Env :=
  { envOk with parse := fun _ => .ok ⟨some (.num 0), some .obj⟩ }

/-- Like `envOk`, but the first upload throws. -/
def envUploadThrows : Env :=
  { envOk with uploadResumeRes := .error (.jsError "network down") }

/-- Like `envOk`, but the AI call returns a falsy result. -/
def envAiFalsy : Env :=
  { envOk with aiRes := .ok none }

/-- Like `envOk`, but the AI response content is neither a string nor an
array. -/
def envAiOther : Env :=
  { envOk with aiRes := .ok (some ⟨⟨.other⟩⟩) }

/-- An array item carrying only a truthy `text` field (not text-typed). -/
def itemPlain : ContentItem :=
  { type := none, text := some "other".toList, content := none }

/-- An array item flagged `type: 'text'` with text `main`. -/
def itemTyped : ContentItem :=
  { type := some "text", text := some "main".toList, content := none }

/-! ### Run lemmas -/

theorem errStatus_ne_empty (e : JSErr) : errStatus e ≠ "" := by
  cases e with
  | jsError m =>
    intro h
    have hlen := congrArg String.length h
    have h7 : ("Error: " : String).length = 7 := rfl
    have h0 : ("" : String).length = 0 := rfl
    simp only [errStatus, String.length_append, h7, h0] at hlen
    omega
  | nonErrorThrow => simp [errStatus]

/-- Every run's event trace is a prefix of the all-steps-succeed trace. -/
theorem run_trace_prefixOf_full (env : Env) (cn jt jd : String) :
    (handleAnalyze env cn jt jd).events <+: fullTrace env cn jt jd := by
  simp only [handleAnalyze]
  repeat' split
  all_goals
    simp_all [fullTrace, record1, resumePathOf, imagePathOf, parsedOf,
      List.cons_prefix_cons]

/-- A run that navigated performed the whole pipeline: its trace is the full
trace. -/
theorem run_navigate_full (env : Env) (cn jt jd : String)
    (h : (handleAnalyze env cn jt jd).events.any isNavigate = true) :
    (handleAnalyze env cn jt jd).events = fullTrace env cn jt jd := by
  revert h
  simp only [handleAnalyze]
  repeat' split
  all_goals intro h
  all_goals
    simp_all [fullTrace, record1, resumePathOf, imagePathOf, parsedOf, isNavigate]

/-- A run that did not navigate ended with the processing flag cleared and a
non-empty status text. -/
theorem run_failure_state (env : Env) (cn jt jd : String)
    (h : (handleAnalyze env cn jt jd).events.any isNavigate = false) :
    (handleAnalyze env cn jt jd).isProcessing = false ∧
      (handleAnalyze env cn jt jd).statusText ≠ "" := by
  revert h
  simp only [handleAnalyze]
  repeat' split
  all_goals intro h
  all_goals simp_all [isNavigate, errStatus_ne_empty]

/-- Every key/value write a run performs targets the run's `resume:<id>` key
and carries either the pending record or a record whose attached feedback
passed the truthiness validation. -/
theorem run_kvSet_mem (env : Env) (cn jt jd : String) (k : String) (rec : ResumeRecord)
    (h : Event.kvSet k rec ∈ (handleAnalyze env cn jt jd).events) :
    k = "resume:" ++ env.uuid ∧
      (rec.feedback = FeedbackVal.emptyStr ∨
        ∃ p : ParsedFeedback, rec.feedback = FeedbackVal.obj p ∧
          truthyField p.overallScore = true ∧ truthyField p.ATS = true) := by
  revert h
  simp only [handleAnalyze]
  repeat' split
  all_goals intro h
  all_goals simp_all
  all_goals
    rcases h with ⟨hk, hrec⟩ | ⟨hk, hrec⟩ <;> subst hrec <;> simp_all

/-- A truthy field is present. -/
theorem isSome_of_truthyField (o : Option JSVal) (h : truthyField o = true) :
    o.isSome = true := by
  cases o
  · simp [truthyField] at h
  · rfl

/-! ### Fence-stripping lemmas -/

theorem stripFence_head (l : List Char) (h : (stripFence l).head? = some '`') :
    l.head? = some '`' := by
  induction l using stripFence.induct with
  | case1 rest ih => simp
  | case2 rest h1 ih => simp
  | case3 c rest h1 h2 ih => simpa [stripFence] using h
  | case4 => simp [stripFence] at h

theorem startsTwoTicks_cons (c : Char) (cs : List Char) :
    startsTwoTicks (c :: cs) = (c == '`' && (cs.head? == some '`')) := by
  rcases cs with _ | ⟨d, cs⟩
  · by_cases h : c = '`' <;> simp [startsTwoTicks, h]
  · by_cases h : c = '`' <;> by_cases h2 : d = '`' <;> simp [startsTwoTicks, h, h2]

theorem startsTriple_cons (c : Char) (cs : List Char) :
    startsTriple (c :: cs) = (c == '`' && startsTwoTicks cs) := by
  rcases cs with _ | ⟨d, cs⟩
  · by_cases h : c = '`' <;> simp [startsTriple, startsTwoTicks, h]
  · rcases cs with _ | ⟨e, cs⟩
    · by_cases h : c = '`' <;> by_cases h2 : d = '`' <;>
        simp [startsTriple, startsTwoTicks, h, h2]
    · by_cases h : c = '`' <;> by_cases h2 : d = '`' <;> by_cases h3 : e = '`' <;>
        simp [startsTriple, startsTwoTicks, h, h2, h3]

theorem startsTwoTicks_stripFence (l : List Char)
    (h : startsTwoTicks (stripFence l) = true) : startsTwoTicks l = true := by
  induction l using stripFence.induct with
  | case1 rest ih => simp [startsTwoTicks]
  | case2 rest h1 ih => simp [startsTwoTicks]
  | case3 c rest h1 h2 ih =>
    rw [show stripFence (c :: rest) = c :: stripFence rest by simp [stripFence]] at h
    rw [startsTwoTicks_cons] at h ⊢
    simp only [Bool.and_eq_true, beq_iff_eq] at h ⊢
    refine ⟨h.1, ?_⟩
    rcases h2 : (stripFence rest).head? with _ | c2
    · simp [h2] at h
    · have hr := stripFence_head rest
      simp only [h2] at hr
      have hc2 : c2 = '`' := by simpa [h2] using h.2
      subst hc2
      simpa using hr rfl
  | case4 => simp [stripFence, startsTwoTicks] at h

/-- The output of the second `replace` never contains three consecutive
backticks: every fence marker is consumed by the greedy left-to-right scan. -/
theorem hasTriple_stripFence (l : List Char) : hasTriple (stripFence l) = false := by
  induction l using stripFence.induct with
  | case1 rest ih => simpa [stripFence] using ih
  | case2 rest h1 ih =>
    have he : stripFence ('`' :: '`' :: '`' :: rest) = stripFence rest := by
      simp [stripFence, h1]
    rw [he]
    exact ih
  | case3 c rest h1 h2 ih =>
    have he : stripFence (c :: rest) = c :: stripFence rest := by
      simp [stripFence, h1, h2]
    rw [he]
    simp only [hasTriple, Bool.or_eq_false_iff]
    refine ⟨?_, ih⟩
    rw [startsTriple_cons]
    by_cases hc : c = '`'
    · simp only [hc, beq_self_eq_true, Bool.true_and]
      cases h2t : startsTwoTicks (stripFence rest) with
      | false => rfl
      | true =>
        exfalso
        have h2r := startsTwoTicks_stripFence rest h2t
        rcases rest with _ | ⟨d, rest⟩
        · simp [startsTwoTicks] at h2r
        rcases rest with _ | ⟨e, rest⟩
        · rw [startsTwoTicks_cons] at h2r
          simp at h2r
        · rw [startsTwoTicks_cons] at h2r
          simp only [Bool.and_eq_true, beq_iff_eq, List.head?_cons,
            Option.some.injEq] at h2r
          exact h2 rest hc (by rw [h2r.1, h2r.2])
    · simp [hc]
  | case4 => simp [stripFence, hasTriple]

theorem startsTriple_iff (l : List Char) :
    startsTriple l = true ↔ ∃ t, l = '`' :: '`' :: '`' :: t := by
  rcases l with _ | ⟨a, _ | ⟨b, _ | ⟨c, t⟩⟩⟩
  · simp [startsTriple]
  · by_cases ha : a = '`' <;> simp [startsTriple, ha]
  · by_cases ha : a = '`' <;> by_cases hb : b = '`' <;> simp [startsTriple, ha, hb]
  · by_cases ha : a = '`' <;> by_cases hb : b = '`' <;> by_cases hc : c = '`' <;>
      simp [startsTriple, ha, hb, hc]

theorem hasTriple_append_left (a b : List Char) (h : hasTriple (a ++ b) = false) :
    hasTriple a = false := by
  induction a with
  | nil => rfl
  | cons c a ih =>
    rw [List.cons_append] at h
    simp only [hasTriple, Bool.or_eq_false_iff] at h ⊢
    refine ⟨?_, ih h.2⟩
    cases hs : startsTriple (c :: a) with
    | false => rfl
    | true =>
      exfalso
      obtain ⟨t, ht⟩ := (startsTriple_iff _).mp hs
      have hc : c = '`' := by injection ht
      have ha2 : a = '`' :: '`' :: t := by injection ht with _ h2
      subst hc
      subst ha2
      have htr : startsTriple ('`' :: ('`' :: '`' :: t ++ b)) = true := by
        rw [startsTriple_iff]
        exact ⟨t ++ b, by simp⟩
      rw [htr] at h
      simp at h

theorem hasTriple_append_right (a b : List Char) (h : hasTriple (a ++ b) = false) :
    hasTriple b = false := by
  induction a with
  | nil => simpa using h
  | cons c a ih =>
    rw [List.cons_append] at h
    simp only [hasTriple, Bool.or_eq_false_iff] at h
    exact ih h.2

theorem hasTriple_trimChars (l : List Char) (h : hasTriple l = false) :
    hasTriple (trimChars l) = false := by
  have hm : hasTriple (l.dropWhile isWS) = false := by
    obtain ⟨a, ha⟩ := List.dropWhile_suffix (l := l) isWS
    rw [← ha] at h
    exact hasTriple_append_right a _ h
  obtain ⟨t, ht⟩ := List.dropWhile_suffix (l := (l.dropWhile isWS).reverse) isWS
  have hmm := congrArg List.reverse ht
  rw [List.reverse_append, List.reverse_reverse] at hmm
  rw [← hmm] at hm
  exact hasTriple_append_left _ _ hm

/-- The cleaned text contains no fence marker at all. -/
theorem hasTriple_cleanText (l : List Char) : hasTriple (cleanText l) = false :=
  hasTriple_trimChars _ (hasTriple_stripFence (stripJsonFence l))

/-- What a run hands to `JSON.parse` is always the cleaned extracted text. -/
theorem run_parserInput (env : Env) (cn jt jd : String) (s : List Char)
    (h : (handleAnalyze env cn jt jd).parserInput = some s) :
    ∃ resp : AIResponse, env.aiRes = .ok (some resp) ∧
      s = cleanText (extractText resp.message.content) := by
  revert h
  simp only [handleAnalyze]
  repeat' split
  all_goals intro h
  all_goals simp_all

/-! ### Claim theorems -/

/-- C1: for every execution of the upload/analyze pipeline, if any step
fails — whether by a checked falsy/invalid result or by a thrown exception
at any awaited call — the handler terminates (it is a total function, so it
never rethrows) with the processing flag cleared and a non-empty status
message. -/
theorem c1_failure_clears_processing_and_sets_status (env : Env) (cn jt jd : String)
    (h : (handleAnalyze env cn jt jd).events.any isNavigate = false) :
    (handleAnalyze env cn jt jd).isProcessing = false ∧
      (handleAnalyze env cn jt jd).statusText ≠ "" :=
  run_failure_state env cn jt jd h

/-- Witness for C1 at a concrete environment in which the first upload
throws. -/
theorem c1_failure_witness :
    (handleAnalyze envUploadThrows "Acme" "Engineer" "Build things").events.any
        isNavigate = false ∧
      (handleAnalyze envUploadThrows "Acme" "Engineer" "Build things").isProcessing
          = false ∧
        (handleAnalyze envUploadThrows "Acme" "Engineer" "Build things").statusText
          ≠ "" :=
  ⟨by decide,
    c1_failure_clears_processing_and_sets_status envUploadThrows
      "Acme" "Engineer" "Build things" (by decide)⟩

/-- C8: for every AI response whose message content is a plain string, the
extracted text equals that string. -/
theorem c8_string_content_extracted (s : List Char) :
    extractText (AIContent.str s) = s := rfl

/-- C7: every text a run passes to `JSON.parse` has had the Markdown fence
markers removed: no three consecutive backticks remain in it. -/
theorem c7_fences_stripped_before_parse (env : Env) (cn jt jd : String)
    (s : List Char)
    (h : (handleAnalyze env cn jt jd).parserInput = some s) :
    hasTriple s = false := by
  obtain ⟨resp, -, rfl⟩ := run_parserInput env cn jt jd s h
  exact hasTriple_cleanText _

/-- Witness for C7 at the concrete successful environment: the fenced AI
answer reaches the parser with both fence markers stripped. -/
theorem c7_fences_witness :
    (handleAnalyze envOk "Acme" "Engineer" "Build things").parserInput =
        some "score 85 and ATS good".toList ∧
      hasTriple "score 85 and ATS good".toList = false :=
  ⟨by decide,
    c7_fences_stripped_before_parse envOk "Acme" "Engineer" "Build things"
      _ (by decide)⟩

/-- C3 counterexample: the array holds exactly one text-flagged item (type
`'text'`, text `main`), but a preceding item with a truthy `text` field is
found first, so the extracted text is `other`, not `main`. -/
theorem c3_counterexample :
    [itemPlain, itemTyped].countP (fun it => it.type == some "text") = 1 ∧
      itemTyped.type = some "text" ∧
      itemTyped.text = some "main".toList ∧
      extractText (AIContent.arr [itemPlain, itemTyped]) = "other".toList ∧
      "other".toList ≠ "main".toList := by
  decide

/-- C3 amended: for every AI response whose message content is an array, if
the first item matching the scan (`item.type === 'text' || item.text`) is a
text-flagged item with a non-empty `text`, the extracted text equals that
item's text. -/
theorem c3_first_match_text (items : List ContentItem) (it : ContentItem)
    (s : List Char)
    (hfind : items.find? itemMatches = some it)
    (htype : it.type = some "text")
    (htext : it.text = some s) (hs : s ≠ []) :
    extractText (AIContent.arr items) = s := by
  simp only [extractText, hfind]
  simp [itemText, truthyText, htext, hs]

/-- Witness for the amended C3 on a one-item array. -/
theorem c3_first_match_witness :
    [itemTyped].find? itemMatches = some itemTyped ∧
      extractText (AIContent.arr [itemTyped]) = "main".toList :=
  ⟨by decide,
    c3_first_match_text [itemTyped] itemTyped "main".toList (by decide) (by decide)
      (by decide) (by decide)⟩

/-- C4: on the concrete inputs company `Acme`, title `Engineer`, description
`Build things`, with every external call succeeding and the AI answer
parsing to an object with `overallScore` and `ATS`, the pipeline performs
every step and ends with a navigation to `/resume/u-123`, the generated
identifier. -/
theorem c4_end_to_end :
    (handleAnalyze envOk "Acme" "Engineer" "Build things").events =
      [.uploadFile, .convertPdf, .uploadImage,
        .kvSet "resume:u-123"
          ⟨"u-123", "/files/resume.pdf", "/files/resume.png",
            "Acme", "Engineer", "Build things", .emptyStr⟩,
        .aiFeedback "/files/resume.pdf" "instructions",
        .kvSet "resume:u-123"
          ⟨"u-123", "/files/resume.pdf", "/files/resume.png",
            "Acme", "Engineer", "Build things", .obj ⟨some (.num 85), some .obj⟩⟩,
        .navigate "/resume/u-123"] ∧
      (handleAnalyze envOk "Acme" "Engineer" "Build things").statusText =
        "Analysis Complete! Redirecting..." := by
  decide

/-- C2 counterexample: with the AI answer parsing to an object carrying
`overallScore: 0` and a truthy `ATS`, both fields are present, yet the run
reports the invalid-format status, clears the processing flag, performs no
second persistence and does not navigate. -/
theorem c2_counterexample :
    (parsedOf envScoreZero).overallScore.isSome = true ∧
      (parsedOf envScoreZero).ATS.isSome = true ∧
      (handleAnalyze envScoreZero "Acme" "Engineer" "Build things").statusText =
        "Invalid feedback format from AI. Please try again." ∧
      (handleAnalyze envScoreZero "Acme" "Engineer" "Build things").isProcessing
          = false ∧
      (handleAnalyze envScoreZero "Acme" "Engineer" "Build things").events.countP
          isKvSet = 1 ∧
      (handleAnalyze envScoreZero "Acme" "Engineer" "Build things").events.any
          isNavigate = false := by
  decide

/-- C2 amended: after a successful parse the run rejects the object (invalid
format status, flag cleared, no second write, no navigation) exactly when
`overallScore` or `ATS` is absent or JS-falsy, and whenever both fields are
truthy it attaches the feedback, persists again and navigates. -/
theorem c2_validation_truthiness (env : Env) (cn jt jd : String)
    (f1 f2 : FSItem) (resp : AIResponse) (p : ParsedFeedback)
    (h1 : env.uploadResumeRes = .ok (some f1))
    (h2 : env.convertRes = .ok ⟨some ()⟩)
    (h3 : env.uploadImageRes = .ok (some f2))
    (h4 : env.kvSet1Res = .ok ())
    (h5 : env.aiRes = .ok (some resp))
    (h6 : extractText resp.message.content ≠ [])
    (h7 : env.parse (cleanText (extractText resp.message.content)) = .ok p)
    (h8 : env.kvSet2Res = .ok ()) :
    if truthyField p.overallScore && truthyField p.ATS then
      (handleAnalyze env cn jt jd).events.any isNavigate = true ∧
        (handleAnalyze env cn jt jd).events.countP isKvSet = 2
    else
      (handleAnalyze env cn jt jd).isProcessing = false ∧
        (handleAnalyze env cn jt jd).statusText =
          "Invalid feedback format from AI. Please try again." ∧
        (handleAnalyze env cn jt jd).events.countP isKvSet = 1 ∧
        (handleAnalyze env cn jt jd).events.any isNavigate = false := by
  have h6e : (extractText resp.message.content).isEmpty = false := by
    simpa [List.isEmpty_iff] using h6
  by_cases hb : (truthyField p.overallScore && truthyField p.ATS) = true
  · rw [if_pos hb]
    obtain ⟨ho, ha⟩ := Bool.and_eq_true_iff.mp hb
    simp [handleAnalyze, h1, h2, h3, h4, h5, h6e, h7, h8, ho, ha,
      isNavigate, isKvSet, List.countP_cons]
  · rw [if_neg hb]
    rw [Bool.and_eq_true_iff] at hb
    push_neg at hb
    simp only [Bool.not_eq_true] at hb
    by_cases ho : truthyField p.overallScore = true
    · have ha := hb ho
      simp [handleAnalyze, h1, h2, h3, h4, h5, h6e, h7, ho, ha,
        isNavigate, isKvSet, List.countP_cons]
    · simp only [Bool.not_eq_true] at ho
      simp [handleAnalyze, h1, h2, h3, h4, h5, h6e, h7, ho,
        isNavigate, isKvSet, List.countP_cons]

/-- Witness for the amended C2 at the concrete successful environment (both
fields truthy). -/
theorem c2_validation_witness :
    envOk.parse (cleanText (extractText (AIContent.str aiAnswer))) =
        .ok ⟨some (.num 85), some .obj⟩ ∧
      (if truthyField (some (JSVal.num 85)) && truthyField (some JSVal.obj) then
        (handleAnalyze envOk "Acme" "Engineer" "Build things").events.any
            isNavigate = true ∧
          (handleAnalyze envOk "Acme" "Engineer" "Build things").events.countP
            isKvSet = 2
      else
        (handleAnalyze envOk "Acme" "Engineer" "Build things").isProcessing = false ∧
          (handleAnalyze envOk "Acme" "Engineer" "Build things").statusText =
            "Invalid feedback format from AI. Please try again." ∧
          (handleAnalyze envOk "Acme" "Engineer" "Build things").events.countP
            isKvSet = 1 ∧
          (handleAnalyze envOk "Acme" "Engineer" "Build things").events.any
            isNavigate = false) :=
  ⟨rfl,
    c2_validation_truthiness envOk "Acme" "Engineer" "Build things"
      ⟨"/files/resume.pdf"⟩ ⟨"/files/resume.png"⟩ ⟨⟨.str aiAnswer⟩⟩
      ⟨some (.num 85), some .obj⟩ rfl rfl rfl rfl rfl (by decide) rfl rfl⟩

/-- C5: the external calls happen in the fixed order (upload, convert,
upload, write, AI call, write, navigate): every trace is a prefix of the
full trace, a navigating run performed all of it, and the full trace holds
exactly two key/value writes (both to `resume:<id>`), two uploads and one
navigation. -/
theorem c5_event_order (env : Env) (cn jt jd : String) :
    (handleAnalyze env cn jt jd).events <+: fullTrace env cn jt jd ∧
      ((handleAnalyze env cn jt jd).events.any isNavigate = true →
        (handleAnalyze env cn jt jd).events = fullTrace env cn jt jd) ∧
      (fullTrace env cn jt jd).countP isKvSet = 2 ∧
      (fullTrace env cn jt jd).countP isUpload = 2 ∧
      (fullTrace env cn jt jd).countP isNavigate = 1 ∧
      ∀ k rec, Event.kvSet k rec ∈ fullTrace env cn jt jd →
        k = "resume:" ++ env.uuid := by
  refine ⟨run_trace_prefixOf_full env cn jt jd, run_navigate_full env cn jt jd,
    rfl, rfl, rfl, ?_⟩
  intro k rec h
  simp only [fullTrace, List.mem_cons, List.not_mem_nil, or_false] at h
  rcases h with h | h | h | h | h | h <;> simp_all

/-- Witness for C5: the successful concrete run navigates and its trace is
the full trace. -/
theorem c5_event_order_witness :
    (handleAnalyze envOk "Acme" "Engineer" "Build things").events.any
        isNavigate = true ∧
      (handleAnalyze envOk "Acme" "Engineer" "Build things").events =
        fullTrace envOk "Acme" "Engineer" "Build things" :=
  ⟨by decide,
    (c5_event_order envOk "Acme" "Engineer" "Build things").2.1 (by decide)⟩

/-- C6: every record a run writes to the key/value store has a `feedback`
that is either the empty string (first write) or an object on which both
`overallScore` and `ATS` are present (second write). -/
theorem c6_store_feedback_invariant (env : Env) (cn jt jd : String)
    (k : String) (rec : ResumeRecord)
    (h : Event.kvSet k rec ∈ (handleAnalyze env cn jt jd).events) :
    rec.feedback = FeedbackVal.emptyStr ∨
      ∃ p : ParsedFeedback, rec.feedback = FeedbackVal.obj p ∧
        p.overallScore.isSome = true ∧ p.ATS.isSome = true := by
  rcases (run_kvSet_mem env cn jt jd k rec h).2 with h1 | ⟨p, hp, ho, ha⟩
  · exact Or.inl h1
  · exact Or.inr ⟨p, hp, isSome_of_truthyField _ ho, isSome_of_truthyField _ ha⟩

/-- Witness for C6 at the concrete successful run's first write. -/
theorem c6_store_witness :
    Event.kvSet "resume:u-123"
        ⟨"u-123", "/files/resume.pdf", "/files/resume.png",
          "Acme", "Engineer", "Build things", .emptyStr⟩ ∈
      (handleAnalyze envOk "Acme" "Engineer" "Build things").events ∧
      (FeedbackVal.emptyStr = FeedbackVal.emptyStr ∨
        ∃ p : ParsedFeedback, FeedbackVal.emptyStr = FeedbackVal.obj p ∧
          p.overallScore.isSome = true ∧ p.ATS.isSome = true) :=
  ⟨by decide,
    c6_store_feedback_invariant envOk "Acme" "Engineer" "Build things"
      "resume:u-123"
      ⟨"u-123", "/files/resume.pdf", "/files/resume.png",
        "Acme", "Engineer", "Build things", .emptyStr⟩ (by decide)⟩

/-- C9: when a step after the first persistence write fails (AI call falsy
or thrown, no extractable text, parse failure, or validation failure), the
store still holds the `resume:<id>` record with empty feedback, and exactly
one write ever happened. -/
theorem c9_late_failure_preserves_first_write (env : Env) (cn jt jd : String)
    (f1 f2 : FSItem)
    (h1 : env.uploadResumeRes = .ok (some f1))
    (h2 : env.convertRes = .ok ⟨some ()⟩)
    (h3 : env.uploadImageRes = .ok (some f2))
    (h4 : env.kvSet1Res = .ok ())
    (h5 : lateFailure env = true) :
    storeAfter (handleAnalyze env cn jt jd).events ("resume:" ++ env.uuid) =
      some
        { id := env.uuid, resumePath := f1.path, imagePath := f2.path
          companyName := cn, jobTitle := jt, jobDescription := jd
          feedback := FeedbackVal.emptyStr } ∧
      (handleAnalyze env cn jt jd).events.countP isKvSet = 1 := by
  revert h5
  simp only [handleAnalyze, lateFailure, h1, h2, h3, h4]
  repeat' split
  all_goals intro h5
  all_goals simp_all [storeAfter, isKvSet]

/-- Witness for C9 at a concrete environment whose AI call returns falsy. -/
theorem c9_witness :
    lateFailure envAiFalsy = true ∧
      storeAfter (handleAnalyze envAiFalsy "Acme" "Engineer" "Build things").events
          "resume:u-123" =
        some ⟨"u-123", "/files/resume.pdf", "/files/resume.png",
          "Acme", "Engineer", "Build things", .emptyStr⟩ :=
  ⟨by decide,
    (c9_late_failure_preserves_first_write envAiFalsy "Acme" "Engineer"
        "Build things" ⟨"/files/resume.pdf"⟩ ⟨"/files/resume.png"⟩
        rfl rfl rfl rfl (by decide)).1⟩

/-- C10: a truthy AI response whose `message.content` is neither a string
nor an array yields an empty extracted text, and the run stops with the
invalid-AI-response-format status, the flag cleared, nothing handed to the
parser, no further write and no navigation. -/
theorem c10_nonstring_nonarray_content (env : Env) (cn jt jd : String)
    (f1 f2 : FSItem) (resp : AIResponse)
    (h1 : env.uploadResumeRes = .ok (some f1))
    (h2 : env.convertRes = .ok ⟨some ()⟩)
    (h3 : env.uploadImageRes = .ok (some f2))
    (h4 : env.kvSet1Res = .ok ())
    (h5 : env.aiRes = .ok (some resp))
    (h6 : resp.message.content = AIContent.other) :
    extractText resp.message.content = [] ∧
      (handleAnalyze env cn jt jd).isProcessing = false ∧
      (handleAnalyze env cn jt jd).statusText =
        "Invalid AI response format. Please try again." ∧
      (handleAnalyze env cn jt jd).parserInput = none ∧
      (handleAnalyze env cn jt jd).events.countP isKvSet = 1 ∧
      (handleAnalyze env cn jt jd).events.any isNavigate = false := by
  simp [handleAnalyze, h1, h2, h3, h4, h5, h6, extractText,
    isNavigate, isKvSet, List.countP_cons]

/-- Witness for C10 at a concrete environment with object-shaped content. -/
theorem c10_witness :
    envAiOther.aiRes = .ok (some ⟨⟨AIContent.other⟩⟩) ∧
      (handleAnalyze envAiOther "Acme" "Engineer" "Build things").statusText =
        "Invalid AI response format. Please try again." ∧
      (handleAnalyze envAiOther "Acme" "Engineer" "Build things").isProcessing
        = false :=
  ⟨rfl,
    (c10_nonstring_nonarray_content envAiOther "Acme" "Engineer" "Build things"
        ⟨"/files/resume.pdf"⟩ ⟨"/files/resume.png"⟩ ⟨⟨AIContent.other⟩⟩
        rfl rfl rfl rfl rfl rfl).2.2.1,
    (c10_nonstring_nonarray_content envAiOther "Acme" "Engineer" "Build things"
        ⟨"/files/resume.pdf"⟩ ⟨"/files/resume.png"⟩ ⟨⟨AIContent.other⟩⟩
        rfl rfl rfl rfl rfl rfl).2.1⟩

end UploadPipeline
